import Mathlib

/-!
Verification development for the FastChat real-time chat backend.

This file gives a shallow embedding, in Lean 4, of the core state and
operations of the repository:

- the per-chat Redis message cache (`src/core/chat/services/redis_service.py`:
  `add_message_to_chat_history`, `get_chat_history`,
  `delete_message_from_redis`),
- the per-user presence counter (`set_online_status` in the same file),
- the WebSocket connection registry and its pub/sub fan-out handlers
  (`src/core/websockets/connection_manager.py`),
- the Redis pub/sub publish path (`src/core/redis/pubsub_manager.py`).

Redis keys are scoped per chat (or per user), so each model state describes
the key space of a single chat (or a single user); pipelined command blocks
in the source are modelled as single atomic state transitions.  Message ids
and user ids are modelled as strings (the callers in
`src/core/chat/services/message_service.py` consistently pass ids of one
type per key, and Redis encodes them canonically).  TTL bookkeeping (expire
calls) has no observable effect before expiry and the claims are scoped to
the pre-expiry window, so TTLs are not part of the model state.
-/

namespace FastChat

/-! ## Chat history cache (`redis_service.py`) -/

/-- Model of the `RedisMessage` pydantic schema (`core/schemas/redis_schemas.py`).
Only the fields the cache logic inspects are kept; `id` and `chat_id` are
modelled as strings. -/
structure RedisMessage where
  id : String
  content : String
  chat_id : String
  user_id : Option String := none
  deriving DecidableEq, Repr

/-- Model of `RedisChatSettings` (`core/schemas/redis_schemas.py`, defaults
`max_history = 1000`, `ttl = 7 days`, `deleted_ttl = 30 days`).  The fields
are unconstrained `int`s in the source, so they are modelled as `Int`. -/
structure RedisChatSettings where
  max_history : Int := 1000
  ttl : Int := 86400 * 7
  deleted_ttl : Int := 86400 * 30
  deriving DecidableEq, Repr

/-- The Redis key space of one chat, as used by the cache functions:
`chat:i:messages` (list, head = index 0), `chat:i:messages:unique`
(hash whose field keys are message ids), `chat:i:messages:deleted` (set). -/
structure ChatCacheState where
  messages : List RedisMessage
  unique : List String
  deleted : List String
  deriving DecidableEq, Repr

/-- A chat whose keys are all absent (fresh chat). -/
def emptyChatCacheState : ChatCacheState := ⟨[], [], []⟩

/-- Redis `LTRIM key 0 stop`: keeps the elements with indices `0..stop`
inclusive.  A negative `stop` counts from the end of the list (`-1` is the
last element); when the effective stop index is before the start the list
becomes empty.  In particular `stop = -1` keeps the whole list. -/
def ltrimFront {α : Type} (l : List α) (stop : Int) : List α :=
  if stop < 0 then
    if (l.length : Int) + stop < 0 then []
    else l.take (((l.length : Int) + stop).toNat + 1)
  else l.take (stop.toNat + 1)

/-- Model of `add_message_to_chat_history` (redis_service.py lines 40-90).
The source first overwrites `message_data` with the passed `chat_id` and
validates it (validation of an already-structured message succeeds), then:
`sismember` on the deleted set rejects tombstoned ids; `hsetnx` on the
unique hash rejects already-seen ids; on success a pipeline does
`lpush` + `ltrim 0 (max_history - 1)` + TTL refreshes.  The trim stop index
`settings.max_history - 1` is Python int arithmetic: for positive
`max_history` the trim keeps the newest `max_history` entries, while at
`max_history = 0` it is `LTRIM key 0 -1`, which keeps the whole list. -/
def add_message_to_chat_history (st : ChatCacheState) (chat_id : String)
    (message_data : RedisMessage) (settings : RedisChatSettings) :
    ChatCacheState × Bool :=
  let message := { message_data with chat_id := chat_id }
  if message.id ∈ st.deleted then
    (st, false)
  else if message.id ∈ st.unique then
    (st, false)
  else
    ({ st with
        messages := ltrimFront (message :: st.messages) (settings.max_history - 1),
        unique := message.id :: st.unique }, true)

/-- Model of `get_chat_history` (redis_service.py lines 93-132): one
pipelined read of the deleted set and `lrange offset (offset+limit-1)`
(at most `limit` items), then a filter dropping tombstoned ids.  The
early `break` at `limit` collected messages is redundant because the
slice already holds at most `limit` items. -/
def get_chat_history (st : ChatCacheState) (offset limit : Nat) :
    List RedisMessage :=
  ((st.messages.drop offset).take limit).filter
    (fun m => decide (m.id ∉ st.deleted))

/-- Model of `delete_message_from_redis` (redis_service.py lines 135-209).
If the id is already tombstoned: `hdel` from the unique hash, return true.
Otherwise the list is scanned for the first entry whose `id` matches, and a
pipeline does `hdel` + `sadd` + TTL refresh + (`lrem 1` of the found bytes,
when found).  Serialization is injective, so removing the first list entry
byte-equal to the found entry removes exactly that entry.  In this branch
`sadd` returns 1, so the function returns true; the source's `return False`
arm is only reachable for replies Redis never produces. -/
def delete_message_from_redis (st : ChatCacheState) (message_id : String)
    (_settings : RedisChatSettings) : ChatCacheState × Bool :=
  if message_id ∈ st.deleted then
    ({ st with unique := st.unique.erase message_id }, true)
  else
    let found := st.messages.find? (fun m => decide (m.id = message_id))
    let messages' := match found with
      | some m => st.messages.erase m
      | none => st.messages
    ({ st with
        unique := st.unique.erase message_id,
        deleted := message_id :: st.deleted,
        messages := messages' }, true)

/-- A cache operation on one chat's key space, used to state properties
over arbitrary subsequent operation sequences. -/
inductive CacheOp where
  | append (chat_id : String) (m : RedisMessage)
  | tombstone (id : String)
  deriving DecidableEq, Repr

/-- Run a sequence of cache operations against one chat's state. -/
def runCacheOps (settings : RedisChatSettings) :
    ChatCacheState → List CacheOp → ChatCacheState
  | st, [] => st
  | st, CacheOp.append cid m :: rest =>
      runCacheOps settings (add_message_to_chat_history st cid m settings).1 rest
  | st, CacheOp.tombstone i :: rest =>
      runCacheOps settings (delete_message_from_redis st i settings).1 rest

/-- Fold `add_message_to_chat_history` over a list of messages. -/
def addAll (settings : RedisChatSettings) (chat_id : String)
    (st : ChatCacheState) (ms : List RedisMessage) : ChatCacheState :=
  ms.foldl (fun st m => (add_message_to_chat_history st chat_id m settings).1) st

/-! ## Presence (`set_online_status` in `redis_service.py`) -/

/-- Model of the `UserStatus` pydantic schema (`core/schemas/user_schemas.py`). -/
structure UserStatus where
  user_id : String
  status : Bool
  deriving DecidableEq, Repr

/-- Model of `RedisConnectionSettings` (`core/schemas/redis_schemas.py`). -/
structure RedisConnectionSettings where
  connection_ttl : Nat := 300
  deriving DecidableEq, Repr

/-- The Redis key space of one user's presence: the counter key
`user:i:connections` (`none` when the key is absent) and the user's
membership in the `online_users` set. -/
structure PresenceState where
  connections : Option Int
  online : Bool
  deriving DecidableEq, Repr

/-- Presence state of a user with no counter who is not in the online set. -/
def emptyPresenceState : PresenceState := ⟨none, false⟩

/-- Model of `set_online_status` (redis_service.py lines 212-281) for one
user, given a well-typed `UserStatus`.  Returns the new presence state and
the presence-change event published on `user_status_changes`, if any.

Connect: pipeline `incr` + `expire`; if the post-increment count is 1,
`sadd` to the online set and publish only when the `sadd` actually added.
Disconnect: if the counter key is absent, defensively `srem` and publish
only if removal occurred; if the count is at most 1, pipeline
`delete` + `srem` and publish when the user was removed from the set or the
count was positive; otherwise just `decr`.  (The `int(...)`-parse-failure
branch is unreachable for counters this model writes.) -/
def set_online_status (p : PresenceState) (user_status : UserStatus)
    (_settings : RedisConnectionSettings) : PresenceState × Option UserStatus :=
  if user_status.status then
    let connections_count := p.connections.getD 0 + 1
    let p1 := { p with connections := some connections_count }
    if connections_count = 1 then
      if p.online then (p1, none)
      else ({ p1 with online := true }, some user_status)
    else (p1, none)
  else
    match p.connections with
    | none =>
        if p.online then ({ p with online := false }, some user_status)
        else (p, none)
    | some current_count =>
        if current_count ≤ 1 then
          let removed := p.online
          let p1 : PresenceState := { connections := none, online := false }
          if removed ∨ current_count > 0 then (p1, some user_status)
          else (p1, none)
        else ({ p with connections := some (current_count - 1) }, none)

/-- Run a sequence of `set_online_status` calls for one user, recording for
each call the online status afterwards and whether a presence-change event
was published. -/
def run_online_status (uid : String) (settings : RedisConnectionSettings) :
    PresenceState → List Bool → List (Bool × Bool)
  | _, [] => []
  | p, s :: rest =>
      let r := set_online_status p ⟨uid, s⟩ settings
      (r.1.online, r.2.isSome) :: run_online_status uid settings r.1 rest

/-! ## Dynamic (Python-level) values and the mistyped presence call

`ConnectionManager.connect`/`disconnect` call
`set_online_status(self.redis_client, user_id, True)` with a bare string
and a boolean, while the function's signature is
`set_online_status(redis, user_status: UserStatus, settings)`.  The body's
first attribute access `user_status.user_id` then raises `AttributeError`
before any Redis command runs; `@handle_redis_errors` (core/redis/errors.py)
catches every `Exception` and returns the default, so the call degrades to
a state-preserving no-op.  `PyVal` models the dynamically-typed argument. -/

/-- A Python value as passed at a dynamically-typed call site. -/
inductive PyVal where
  | str (s : String)
  | bool (b : Bool)
  | int (n : Int)
  | dict (entries : List (String × String))
  | userStatus (u : UserStatus)
  | connSettings (s : RedisConnectionSettings)
  deriving DecidableEq, Repr

/-- Whether a `PyVal` is a Python `dict` (used by `isinstance(message, dict)`). -/
def PyVal.isDict : PyVal → Bool
  | .dict _ => true
  | _ => false

/-- Presence key spaces of all users, keyed by user id. -/
abbrev PresenceMap := List (String × PresenceState)

/-- Look up a user's presence key space (absent keys read as empty). -/
def presenceOf (m : PresenceMap) (uid : String) : PresenceState :=
  ((m.find? (fun p => p.1 == uid)).map (fun p => p.2)).getD emptyPresenceState

/-- Write back a user's presence key space. -/
def presenceSet (m : PresenceMap) (uid : String) (p : PresenceState) :
    PresenceMap :=
  if m.any (fun q => q.1 == uid) then
    m.map (fun q => if q.1 == uid then (uid, p) else q)
  else m ++ [(uid, p)]

/-- The `set_online_status` call as it behaves at a dynamically-typed call
site.  With a genuine `UserStatus` (and, on the connect path, genuine
settings, which are first consulted by `pipe.expire`), the typed body runs;
with any other `user_status` value, `user_status.user_id` raises
`AttributeError` before any Redis command and `@handle_redis_errors`
swallows it, leaving every key unchanged and publishing nothing. -/
def set_online_status_dyn (m : PresenceMap) (user_status settings : PyVal) :
    PresenceMap × Option UserStatus :=
  match user_status with
  | .userStatus u =>
      if u.status then
        match settings with
        | .connSettings cs =>
            let r := set_online_status (presenceOf m u.user_id) u cs
            (presenceSet m u.user_id r.1, r.2)
        | _ => (m, none)
      else
        let r := set_online_status (presenceOf m u.user_id) u
          { connection_ttl := 300 }
        (presenceSet m u.user_id r.1, r.2)
  | _ => (m, none)

/-! ## Connection registry (`connection_manager.py`)

WebSocket handles are modelled as natural numbers.  The registry state
holds the two local maps, the heartbeat-task map's key set, the Redis-side
connection sets written by `connect`/`disconnect`, and the presence key
space touched through the (mistyped) `set_online_status` calls. -/

/-- The close code `status.WS_1011_INTERNAL_ERROR`. -/
def WS_1011_INTERNAL_ERROR : Nat := 1011

/-- The close code `status.WS_1000_NORMAL_CLOSURE`. -/
def WS_1000_NORMAL_CLOSURE : Nat := 1000

/-- State of a `ConnectionManager` instance plus the Redis keys it writes:
`active_local_connections` maps a websocket to `(user_id, chat_id)`;
`local_chats` maps a chat id to the set of local websockets;
`heartbeat_tasks` is the key set of the per-connection heartbeat-task map;
`redis_chat_connections` and `redis_user_chats` model the
`chat:i:connections` and `user:i:active_chats` Redis sets;
`presence` models the presence key space. -/
structure ConnectionManagerState where
  active_local_connections : List (Nat × String × String)
  local_chats : List (String × List Nat)
  heartbeat_tasks : List Nat
  redis_chat_connections : List (String × List String)
  redis_user_chats : List (String × List String)
  presence : PresenceMap
  deriving DecidableEq, Repr

/-- A manager with no connections and empty Redis key spaces. -/
def emptyConnectionManagerState : ConnectionManagerState :=
  ⟨[], [], [], [], [], []⟩

/-- Python dict assignment `d[k] = v` on the connection map. -/
def dictSet (m : List (Nat × String × String)) (k : Nat) (v : String × String) :
    List (Nat × String × String) :=
  if m.any (fun p => p.1 == k) then
    m.map (fun p => if p.1 == k then (k, v) else p)
  else m ++ [(k, v)]

/-- `local_chats[chat_id].add(ws)` on the defaultdict of websocket sets. -/
def chatAdd (m : List (String × List Nat)) (chat_id : String) (ws : Nat) :
    List (String × List Nat) :=
  if m.any (fun p => p.1 == chat_id) then
    m.map (fun p =>
      if p.1 == chat_id then (p.1, if ws ∈ p.2 then p.2 else p.2 ++ [ws]) else p)
  else m ++ [(chat_id, [ws])]

/-- The `disconnect` cleanup of `local_chats`: remove the websocket from the
chat's set when present, deleting the chat's entry if its set becomes empty. -/
def chatRemove (m : List (String × List Nat)) (chat_id : String) (ws : Nat) :
    List (String × List Nat) :=
  m.filterMap (fun p =>
    if p.1 = chat_id ∧ ws ∈ p.2 then
      let c := p.2.erase ws
      if c.isEmpty then none else some (p.1, c)
    else some p)

/-- `sadd key member` on a keyed family of Redis string sets. -/
def setAdd (m : List (String × List String)) (key member : String) :
    List (String × List String) :=
  if m.any (fun p => p.1 == key) then
    m.map (fun p =>
      if p.1 == key then (p.1, if member ∈ p.2 then p.2 else p.2 ++ [member])
      else p)
  else m ++ [(key, [member])]

/-- `srem key member` on a keyed family of Redis string sets. -/
def setRemove (m : List (String × List String)) (key member : String) :
    List (String × List String) :=
  m.map (fun p => if p.1 == key then (p.1, p.2.erase member) else p)

/-- Model of `ConnectionManager.connect` (connection_manager.py lines 59-93):
accept the handshake, register the connection in both local maps, register
the connection in the Redis sets (pipeline of two `sadd` + `expire`), call
`set_online_status(redis, user_id, True)` — the mistyped call, modelled by
`set_online_status_dyn` with a bare string and boolean — and start a
heartbeat task if none exists for this websocket. -/
def ConnectionManager.connect (st : ConnectionManagerState) (websocket : Nat)
    (chat_id user_id : String) : ConnectionManagerState :=
  let st := { st with
    active_local_connections :=
      dictSet st.active_local_connections websocket (user_id, chat_id),
    local_chats := chatAdd st.local_chats chat_id websocket }
  let st := { st with
    redis_chat_connections := setAdd st.redis_chat_connections chat_id user_id,
    redis_user_chats := setAdd st.redis_user_chats user_id chat_id }
  let r := set_online_status_dyn st.presence (.str user_id) (.bool true)
  let st := { st with presence := r.1 }
  if websocket ∈ st.heartbeat_tasks then st
  else { st with heartbeat_tasks := st.heartbeat_tasks ++ [websocket] }

/-- Model of `ConnectionManager.disconnect` (connection_manager.py lines
95-173).  For a tracked websocket: cancel and drop its heartbeat task,
delete it from the connection map, remove it from its chat's set (dropping
the chat entry if empty), `srem` the Redis sets, and make the mistyped
`set_online_status(redis, user_id, False)` call (a state-preserving no-op).
For an untracked websocket the method only closes the transport.  The
close code does not affect registry state. -/
def ConnectionManager.disconnect (st : ConnectionManagerState) (websocket : Nat)
    (_code : Nat) : ConnectionManagerState :=
  match st.active_local_connections.find? (fun p => p.1 == websocket) with
  | none => st
  | some entry =>
      let user_id := entry.2.1
      let chat_id := entry.2.2
      let st := { st with
        heartbeat_tasks := st.heartbeat_tasks.erase websocket }
      let st := { st with
        active_local_connections :=
          st.active_local_connections.filter (fun q => !(q.1 == websocket)) }
      let st := { st with local_chats := chatRemove st.local_chats chat_id websocket }
      let st := { st with
        redis_chat_connections := setRemove st.redis_chat_connections chat_id user_id,
        redis_user_chats := setRemove st.redis_user_chats user_id chat_id }
      let r := set_online_status_dyn st.presence (.str user_id) (.bool false)
      { st with presence := r.1 }

/-- Outcome of one heartbeat cycle's `send_text` (or the sleep after it). -/
inductive SendOutcome where
  | ok
  | wsDisconnect
  | cancelled
  | exc
  deriving DecidableEq, Repr

/-- Model of `ConnectionManager._heartbeat_loop` (connection_manager.py
lines 175-200), driven by one `SendOutcome` per loop iteration.  The loop
runs while the websocket is a key of `active_local_connections`.  `ok`
continues; `WebSocketDisconnect` and `asyncio.CancelledError` are caught by
the first `except` arm and only `break`; any other exception awaits
`disconnect` with `WS_1011_INTERNAL_ERROR` and breaks.  Returns the final
state and the list of `(websocket, code)` disconnect calls made. -/
def heartbeat_loop (st : ConnectionManagerState) (websocket : Nat) :
    List SendOutcome → ConnectionManagerState × List (Nat × Nat)
  | [] => (st, [])
  | o :: rest =>
      if st.active_local_connections.any (fun p => p.1 == websocket) then
        match o with
        | .ok => heartbeat_loop st websocket rest
        | .wsDisconnect => (st, [])
        | .cancelled => (st, [])
        | .exc =>
            (ConnectionManager.disconnect st websocket WS_1011_INTERNAL_ERROR,
             [(websocket, WS_1011_INTERNAL_ERROR)])
      else (st, [])

/-- Whether any local registry structure still references a websocket. -/
def referencesWebsocket (st : ConnectionManagerState) (websocket : Nat) : Prop :=
  (∃ p ∈ st.active_local_connections, p.1 = websocket) ∨
  (∃ p ∈ st.local_chats, websocket ∈ p.2) ∨
  websocket ∈ st.heartbeat_tasks

/-! ## Pub/sub fan-out handlers (`connection_manager.py`) -/

/-- Python truthiness of an optional string (`None` and the empty string
are falsy). -/
def truthyOpt : Option String → Bool
  | none => false
  | some s => !s.isEmpty

/-- The `data` dict of a new-message envelope; only the `chat_id` key is
inspected by the handler (absent key reads as `None`). -/
structure ChatMessagePayload where
  chat_id : Option String
  deriving DecidableEq, Repr

/-- A new-message envelope as published by `broadcast_to_chat_via_pubsub`:
keys `type`, `sender_id`, `data` (absent keys read as `None`). -/
structure ChatMessageEnvelope where
  sender_id : Option String
  data : Option ChatMessagePayload
  deriving DecidableEq, Repr

/-- `self.local_chats[chat_id]` guarded by `chat_id in self.local_chats`. -/
def lookupChat (st : ConnectionManagerState) (chat_id : String) :
    Option (List Nat) :=
  (st.local_chats.find? (fun p => p.1 == chat_id)).map (fun p => p.2)

/-- `self.active_local_connections.get(ws, (None, None))` projected to the
user id: `none` models the `None` default. -/
def userOf (st : ConnectionManagerState) (websocket : Nat) : Option String :=
  (st.active_local_connections.find? (fun p => p.1 == websocket)).map
    (fun p => p.2.1)

/-- Model of `ConnectionManager._handle_chat_message_pubsub`
(connection_manager.py lines 217-268).  Returns the websockets passed to
`_send_to_websocket` (the send attempts; the `asyncio.gather` that awaits
them is not part of the registry state).  The guard
`if not chat_id or not payload_to_send: return` fires exactly when the
extracted `chat_id` is falsy: if `data` is absent or the empty dict, the
`chat_id` read is `None`.  A connection is skipped iff its looked-up user
id and the envelope's `sender_id` are both truthy and equal. -/
def handle_chat_message_pubsub (st : ConnectionManagerState)
    (message : ChatMessageEnvelope) : List Nat :=
  let chat_id := message.data.bind (fun d => d.chat_id)
  if !truthyOpt chat_id then []
  else
    match chat_id with
    | none => []
    | some cid =>
        match lookupChat st cid with
        | none => []
        | some conns =>
            conns.filter (fun ws =>
              let ws_user_id := userOf st ws
              !(truthyOpt ws_user_id && truthyOpt message.sender_id &&
                (ws_user_id == message.sender_id)))

/-- A deletion envelope as published by `MessageService.delete_message`:
keys `type`, `message_id`, `chat_id`, `deleted_at`; the handler reads
`chat_id` and `message_id` and forwards the whole envelope. -/
structure DeletedMessageEnvelope where
  chat_id : Option String
  message_id : Option String
  deriving DecidableEq, Repr

/-- Model of `ConnectionManager._handle_deleted_message_pubsub`
(connection_manager.py lines 270-306).  After the guard on `chat_id` and
`message_id`, a send is attempted to every websocket of the chat with no
sender exclusion, forwarding the whole envelope; returns the
`(websocket, payload)` send attempts. -/
def handle_deleted_message_pubsub (st : ConnectionManagerState)
    (message : DeletedMessageEnvelope) : List (Nat × DeletedMessageEnvelope) :=
  if !truthyOpt message.chat_id || !truthyOpt message.message_id then []
  else
    match message.chat_id with
    | none => []
    | some cid =>
        match lookupChat st cid with
        | none => []
        | some conns => conns.map (fun ws => (ws, message))

/-! ## Bus publish (`pubsub_manager.py`) -/

/-- The classes of exception the `publish` body can see: the three caught
transport classes (`RedisConnectionError`, `RedisTimeoutError`, `OSError` —
the lazy reconnect path raises Python's `ConnectionError`, an `OSError`
subclass) and any other `Exception` (e.g. a serialization `TypeError`). -/
inductive PublishError where
  | connectionError
  | timeoutError
  | osError
  | unexpected
  deriving DecidableEq, Repr

/-- Whether the error is caught by the transport-error arm, which also
resets the publisher connection. -/
def PublishError.isTransport : PublishError → Bool
  | .unexpected => false
  | _ => true

/-- Result of one fallible step inside the `try` block. -/
inductive StepResult (α : Type) where
  | ok (value : α)
  | raised (e : PublishError)
  deriving DecidableEq, Repr

/-- A reply from `redis.publish`: the receiver count, or a non-integer
value (the source guards with `isinstance(receivers, int)`). -/
inductive RedisReply where
  | int (n : Int)
  | other
  deriving DecidableEq, Repr

/-- The behaviour of the environment during one `publish` call: what each
fallible step does if reached. -/
structure PublishBehavior where
  get_publisher : StepResult Unit
  serialize : StepResult Unit
  transport_publish : StepResult RedisReply
  deriving DecidableEq, Repr

/-- The steps of the `try` block, in order, for recording what ran. -/
inductive PublishStep where
  | get_publisher
  | serialize
  | transport_publish
  deriving DecidableEq, Repr

/-- State of a `RedisPubSubManager` relevant to `publish`: the publisher's
lazily created client (`RedisConnectionManager._redis_client`) and the
handler table `_handlers` (channel ↦ handler count). -/
structure BusState where
  publisher_client : Option Unit
  handlers : List (String × Nat)
  deriving DecidableEq, Repr

/-- The exception handling of `publish`: the transport arm clears
`self.publisher._redis_client`; the generic arm leaves state alone.  Both
return 0. -/
def handlePublishError (st : BusState) (e : PublishError) : BusState :=
  if e.isTransport then { st with publisher_client := none } else st

/-- Model of `RedisPubSubManager.publish` (pubsub_manager.py lines 182-207).
Guards: an empty channel or a non-dict message return 0 before the `try`
block.  Then `_get_redis_publisher` (which establishes the lazy client),
`serialize_data`, and `redis.publish` run in order; a raise at any step is
caught, logged, degraded to a 0 return (with the connection reset for
transport errors), and a success returns the receiver count when it is an
`int`, else 0.  The returned triple is (new state, return value, steps that
were attempted). -/
def RedisPubSubManager.publish (st : BusState) (channel : String)
    (message : PyVal) (b : PublishBehavior) :
    BusState × Int × List PublishStep :=
  if channel.isEmpty then (st, 0, [])
  else if !message.isDict then (st, 0, [])
  else
    match b.get_publisher with
    | .raised e => (handlePublishError st e, 0, [.get_publisher])
    | .ok _ =>
        let st := { st with publisher_client := some () }
        match b.serialize with
        | .raised e => (handlePublishError st e, 0, [.get_publisher, .serialize])
        | .ok _ =>
            match b.transport_publish with
            | .raised e =>
                (handlePublishError st e, 0,
                 [.get_publisher, .serialize, .transport_publish])
            | .ok r =>
                (st, (match r with | .int n => n | .other => 0),
                 [.get_publisher, .serialize, .transport_publish])

/-- The first exception raised during the `try` block of `publish`, if the
guards pass and the steps run in order. -/
def publishFirstError (b : PublishBehavior) : Option PublishError :=
  match b.get_publisher with
  | .raised e => some e
  | .ok _ =>
      match b.serialize with
      | .raised e => some e
      | .ok _ =>
          match b.transport_publish with
          | .raised e => some e
          | .ok _ => none

/-! ## Concrete example states used by witnesses and counterexamples -/

/-- A registry with three connections on chat `c7`: websockets 1 and 2 both
belong to user `u1`, websocket 3 to user `u2`. -/
def exampleManagerState : ConnectionManagerState :=
  { active_local_connections := [(1, ("u1", "c7")), (2, ("u1", "c7")), (3, ("u2", "c7"))],
    local_chats := [("c7", [1, 2, 3])],
    heartbeat_tasks := [1, 2, 3],
    redis_chat_connections := [("c7", ["u1", "u2"])],
    redis_user_chats := [("u1", ["c7"]), ("u2", ["c7"])],
    presence := [("u1", ⟨some 2, true⟩), ("u2", ⟨some 1, true⟩)] }

/-- A new-message envelope for chat `c7` sent by user `u1`. -/
def exampleChatEnvelope : ChatMessageEnvelope :=
  { sender_id := some "u1", data := some { chat_id := some "c7" } }

/-- A deletion envelope for message `42` of chat `c7`. -/
def exampleDeletedEnvelope : DeletedMessageEnvelope :=
  { chat_id := some "c7", message_id := some "42" }

/-- A cached message with id `42`. -/
def exampleCachedMessage : RedisMessage :=
  { id := "42", content := "hi", chat_id := "7" }

/-- A chat cache holding exactly the message with id `42`. -/
def exampleChatCacheState : ChatCacheState :=
  ⟨[exampleCachedMessage], ["42"], []⟩

/-- Chat settings with a small history bound, for concrete evaluation. -/
def exampleSettings : RedisChatSettings :=
  { max_history := 3, ttl := 604800, deleted_ttl := 2592000 }

/-- A message with id `1`. -/
def exampleMessageA : RedisMessage := ⟨"1", "a", "7", none⟩

/-- A duplicate publish of the message with id `1` (different content). -/
def exampleMessageA2 : RedisMessage := ⟨"1", "a again", "9", none⟩

/-- The cache after appending `exampleMessageA` to a fresh chat `7`. -/
def exampleAddedState : ChatCacheState := ⟨[exampleMessageA], ["1"], []⟩

/-- Eight distinct messages, five more than `exampleSettings.max_history`. -/
def exampleMessages : List RedisMessage :=
  [⟨"1", "a", "7", none⟩, ⟨"2", "b", "7", none⟩, ⟨"3", "c", "7", none⟩,
   ⟨"4", "d", "7", none⟩, ⟨"5", "e", "7", none⟩, ⟨"6", "f", "7", none⟩,
   ⟨"7", "g", "7", none⟩, ⟨"8", "h", "7", none⟩]

/-! # Theorems

Helper lemmas come first, then one theorem per claim (with its witness or
counterexample where required). -/

/-- `add_message_to_chat_history` never changes the tombstone set. -/
theorem add_message_preserves_deleted (st : ChatCacheState) (cid : String)
    (m : RedisMessage) (s : RedisChatSettings) :
    ((add_message_to_chat_history st cid m s).1).deleted = st.deleted := by
  unfold add_message_to_chat_history
  dsimp only
  split
  · rfl
  · split
    · rfl
    · rfl

/-- `delete_message_from_redis` never removes an id from the tombstone set. -/
theorem delete_message_preserves_deleted (st : ChatCacheState) (i j : String)
    (s : RedisChatSettings) (h : i ∈ st.deleted) :
    i ∈ ((delete_message_from_redis st j s).1).deleted := by
  unfold delete_message_from_redis
  dsimp only
  split
  · exact h
  · exact List.mem_cons_of_mem _ h

/-- The tombstoned id is in the tombstone set after `delete_message_from_redis`. -/
theorem delete_message_mem_deleted (st : ChatCacheState) (i : String)
    (s : RedisChatSettings) :
    i ∈ ((delete_message_from_redis st i s).1).deleted := by
  unfold delete_message_from_redis
  dsimp only
  split
  · assumption
  · exact List.mem_cons_self _ _

/-- Tombstone-set membership is preserved by any sequence of cache operations. -/
theorem runCacheOps_preserves_deleted (s : RedisChatSettings) (i : String) :
    ∀ (ops : List CacheOp) (st : ChatCacheState), i ∈ st.deleted →
      i ∈ (runCacheOps s st ops).deleted
  | [], _, h => h
  | CacheOp.append cid m :: rest, st, h =>
      runCacheOps_preserves_deleted s i rest _
        ((add_message_preserves_deleted st cid m s).symm ▸ h)
  | CacheOp.tombstone j :: rest, st, h =>
      runCacheOps_preserves_deleted s i rest _
        (delete_message_preserves_deleted st i j s h)

/-- An append whose message id is tombstoned is rejected and mutates nothing. -/
theorem add_message_rejected_of_deleted (st : ChatCacheState) (cid : String)
    (m : RedisMessage) (s : RedisChatSettings) (h : m.id ∈ st.deleted) :
    add_message_to_chat_history st cid m s = (st, false) := by
  unfold add_message_to_chat_history
  dsimp only
  rw [if_pos h]

/-- Every message returned by `get_chat_history` has a non-tombstoned id. -/
theorem get_chat_history_not_deleted (st : ChatCacheState) (offset limit : Nat)
    (m : RedisMessage) (h : m ∈ get_chat_history st offset limit) :
    m.id ∉ st.deleted := by
  unfold get_chat_history at h
  exact of_decide_eq_true (List.mem_filter.mp h).2

/-- C2: once `delete_message_from_redis` succeeds for a message id, every
subsequent `add_message_to_chat_history` with that id — after any further
sequence of cache operations — returns false and leaves the state
unchanged, and `get_chat_history` never returns a message with that id. -/
theorem tombstone_suppression (st : ChatCacheState) (message_id : String)
    (settings : RedisChatSettings) (ops : List CacheOp) :
    (delete_message_from_redis st message_id settings).2 = true ∧
    (∀ cid m, m.id = message_id →
      add_message_to_chat_history
          (runCacheOps settings (delete_message_from_redis st message_id settings).1 ops)
          cid m settings =
        (runCacheOps settings (delete_message_from_redis st message_id settings).1 ops,
          false)) ∧
    (∀ offset limit m,
      m ∈ get_chat_history
            (runCacheOps settings (delete_message_from_redis st message_id settings).1 ops)
            offset limit →
      m.id ≠ message_id) := by
  have hmem : message_id ∈
      ((runCacheOps settings (delete_message_from_redis st message_id settings).1 ops)).deleted :=
    runCacheOps_preserves_deleted settings message_id ops _
      (delete_message_mem_deleted st message_id settings)
  refine ⟨?_, ?_, ?_⟩
  · unfold delete_message_from_redis
    dsimp only
    split
    · rfl
    · rfl
  · intro cid m hm
    exact add_message_rejected_of_deleted _ cid m settings (hm ▸ hmem)
  · intro offset limit m hm hid
    exact get_chat_history_not_deleted _ offset limit m hm (hid ▸ hmem)

/-- Witness for C2 at a concrete input: after tombstoning id `42`, an
append of a message with id `42` is rejected and mutates nothing. -/
theorem tombstone_suppression_witness :
    add_message_to_chat_history
        (runCacheOps exampleSettings
          (delete_message_from_redis exampleChatCacheState "42" exampleSettings).1 [])
        "7" exampleCachedMessage exampleSettings =
      (runCacheOps exampleSettings
        (delete_message_from_redis exampleChatCacheState "42" exampleSettings).1 [],
        false) :=
  (tombstone_suppression exampleChatCacheState "42" exampleSettings []).2.1
    "7" exampleCachedMessage rfl

/-- For a positive bound, the source's `ltrim(0, max_history - 1)` keeps
exactly the first `max_history` elements. -/
theorem ltrimFront_eq_take {α : Type} (l : List α) (mh : Int) (h : 0 < mh) :
    ltrimFront l (mh - 1) = l.take mh.toNat := by
  unfold ltrimFront
  rw [if_neg (by omega)]
  congr 1
  omega

/-- At `max_history = 0` the trim is `LTRIM key 0 -1`, which keeps the
whole list (the stop index wraps to the last element). -/
theorem ltrimFront_neg_one {α : Type} (l : List α) : ltrimFront l (-1) = l := by
  unfold ltrimFront
  rw [if_pos (by omega)]
  by_cases h : (l.length : Int) + (-1) < 0
  · rw [if_pos h]
    have hnil : l.length = 0 := by omega
    exact (List.length_eq_zero.mp hnil).symm
  · rw [if_neg h]
    apply List.take_of_length_le
    omega

/-- Inversion of a successful append: the id was neither tombstoned nor
seen, and the new state pushes the (chat-id-stamped) message to the front,
trims with `ltrim(0, max_history - 1)`, and records the id as seen. -/
theorem add_message_success_inversion (st st1 : ChatCacheState) (cid : String)
    (m : RedisMessage) (s : RedisChatSettings)
    (h : add_message_to_chat_history st cid m s = (st1, true)) :
    m.id ∉ st.deleted ∧ m.id ∉ st.unique ∧
    st1 = { st with
      messages := ltrimFront ({ m with chat_id := cid } :: st.messages)
        (s.max_history - 1),
      unique := m.id :: st.unique } := by
  unfold add_message_to_chat_history at h
  dsimp only at h
  split at h
  · exact absurd (congrArg Prod.snd h) (by simp)
  · split at h
    · exact absurd (congrArg Prod.snd h) (by simp)
    · exact ⟨by assumption, by assumption, (congrArg Prod.fst h).symm⟩

/-- C3: appending a second message with an already-appended id is rejected:
the call returns false with the state unchanged, the store holds exactly
one copy of that id, and the history read is unaffected by the duplicate. -/
theorem dedup_idempotence (st st1 : ChatCacheState) (cid : String)
    (m1 m2 : RedisMessage) (settings : RedisChatSettings)
    (hmax : 0 < settings.max_history)
    (hwf : ∀ m ∈ st.messages, m.id ∈ st.unique)
    (h1 : add_message_to_chat_history st cid m1 settings = (st1, true))
    (h2 : m2.id = m1.id) :
    add_message_to_chat_history st1 cid m2 settings = (st1, false) ∧
    st1.messages.countP (fun m => decide (m.id = m1.id)) = 1 ∧
    (∀ offset limit,
      get_chat_history (add_message_to_chat_history st1 cid m2 settings).1
          offset limit =
        get_chat_history st1 offset limit) := by
  obtain ⟨hdel, huni, hst1⟩ := add_message_success_inversion st st1 cid m1 settings h1
  have hdel1 : st1.deleted = st.deleted := by rw [hst1]
  have huni1 : st1.unique = m1.id :: st.unique := by rw [hst1]
  have hrej : add_message_to_chat_history st1 cid m2 settings = (st1, false) := by
    unfold add_message_to_chat_history
    dsimp only
    rw [if_neg (by rw [h2, hdel1]; exact hdel), if_pos (by rw [h2, huni1]; exact List.mem_cons_self _ _)]
  refine ⟨hrej, ?_, ?_⟩
  · have hmsgs : st1.messages =
        ({ m1 with chat_id := cid } :: st.messages).take settings.max_history.toNat := by
      rw [hst1]
      exact ltrimFront_eq_take _ settings.max_history hmax
    obtain ⟨n, hn⟩ : ∃ n, settings.max_history.toNat = n + 1 :=
      ⟨settings.max_history.toNat - 1, by omega⟩
    have h0 : List.countP (fun m => decide (m.id = m1.id)) (st.messages.take n) = 0 :=
      List.countP_eq_zero.mpr (fun a ha => by
        have hmem : a.id ∈ st.unique := hwf a (List.take_subset n st.messages ha)
        simp only [decide_eq_true_eq]
        intro hEq
        exact huni (hEq ▸ hmem))
    rw [hmsgs, hn, List.take_succ_cons, List.countP_cons, h0]
    simp
  · intro offset limit
    rw [hrej]

/-- Witness for C3 at a concrete input: the second append of id `1` to chat
`7` is rejected and leaves the state unchanged. -/
theorem dedup_idempotence_witness :
    add_message_to_chat_history exampleAddedState "7" exampleMessageA2
        exampleSettings =
      (exampleAddedState, false) :=
  (dedup_idempotence emptyChatCacheState exampleAddedState "7" exampleMessageA
      exampleMessageA2 exampleSettings (by decide)
      (fun m hm => absurd hm (List.not_mem_nil m)) (by decide) rfl).1

/-- Taking `n` of an append whose tail was already truncated at `m ≥ n`
agrees with taking `n` of the untruncated append. -/
theorem take_append_take {α : Type} (l1 l2 : List α) (n m : Nat) (h : n ≤ m) :
    (l1 ++ l2.take m).take n = (l1 ++ l2).take n := by
  have hmin : min (n - l1.length) m = n - l1.length :=
    Nat.min_eq_left (le_trans (Nat.sub_le n l1.length) h)
  rw [List.take_append_eq_append_take, List.take_take, hmin,
    ← List.take_append_eq_append_take]

/-- Folding appends of messages with fresh, pairwise-distinct ids over a
tombstone-free state, with a positive history bound: every append
succeeds, so the message list is the reversed input (stamped with the chat
id) prepended to the old list and trimmed, and the tombstone set stays
empty. -/
theorem addAll_fresh (settings : RedisChatSettings) (cid : String)
    (hmax : 0 < settings.max_history) :
    ∀ (ms : List RedisMessage) (st : ChatCacheState),
      st.deleted = [] →
      st.messages.length ≤ settings.max_history.toNat →
      (ms.map (fun m => m.id)).Nodup →
      (∀ m ∈ ms, m.id ∉ st.unique) →
      (addAll settings cid st ms).messages =
        ((ms.map (fun m => ({ m with chat_id := cid } : RedisMessage))).reverse ++
          st.messages).take settings.max_history.toNat ∧
      (addAll settings cid st ms).deleted = []
  | [], st, hdel, hlen, _, _ => by
      constructor
      · simp [addAll, List.take_of_length_le hlen]
      · exact hdel
  | m :: rest, st, hdel, hlen, hnd, hfresh => by
      have hmdel : m.id ∉ st.deleted := by rw [hdel]; exact List.not_mem_nil _
      have hmuni : m.id ∉ st.unique := hfresh m (List.mem_cons_self _ _)
      have hstep : add_message_to_chat_history st cid m settings =
          ({ st with
              messages := ({ m with chat_id := cid } :: st.messages).take
                settings.max_history.toNat,
              unique := m.id :: st.unique }, true) := by
        unfold add_message_to_chat_history
        dsimp only
        rw [if_neg hmdel, if_neg hmuni,
          ltrimFront_eq_take _ settings.max_history hmax]
      have hnd' : (rest.map (fun m => m.id)).Nodup := by
        simpa using (List.nodup_cons.mp (by simpa using hnd)).2
      have hhead : m.id ∉ rest.map (fun m => m.id) :=
        (List.nodup_cons.mp (by simpa using hnd)).1
      have hfresh' : ∀ m' ∈ rest, m'.id ∉ (m.id :: st.unique) := by
        intro m' hm' hmem
        rcases List.mem_cons.mp hmem with hEq | hmem'
        · exact hhead (hEq ▸ List.mem_map_of_mem (fun m => m.id) hm')
        · exact hfresh m' (List.mem_cons_of_mem _ hm') hmem'
      have ih := addAll_fresh settings cid hmax rest
        { st with
            messages := ({ m with chat_id := cid } :: st.messages).take
              settings.max_history.toNat,
            unique := m.id :: st.unique }
        hdel (by simp [Nat.min_le_left]) hnd' hfresh'
      have hfold : addAll settings cid st (m :: rest) =
          addAll settings cid
            { st with
                messages := ({ m with chat_id := cid } :: st.messages).take
                  settings.max_history.toNat,
                unique := m.id :: st.unique }
            rest := by
        unfold addAll
        rw [List.foldl_cons]
        rw [show (add_message_to_chat_history st cid m settings).1 =
          { st with
              messages := ({ m with chat_id := cid } :: st.messages).take
                settings.max_history.toNat,
              unique := m.id :: st.unique } from congrArg Prod.fst hstep]
      constructor
      · rw [hfold, ih.1]
        dsimp only
        rw [take_append_take _ _ _ _ (le_refl settings.max_history.toNat)]
        simp [List.append_assoc]
      · rw [hfold]
        exact ih.2

/-- C5: for a positive history bound (at `max_history = 0` the source's
`ltrim(0, -1)` keeps the whole list, so the bound is vacuous there),
appending `max_history + 5` distinct messages to a fresh chat leaves
exactly `max_history` cached entries, the most recent first (the trimmed
reverse of the appends), and each single append preserves the
`length ≤ max_history` invariant. -/
theorem bounded_history (settings : RedisChatSettings) (cid : String)
    (ms : List RedisMessage)
    (hmax : 0 < settings.max_history)
    (hlen : ms.length = settings.max_history.toNat + 5)
    (hnd : (ms.map (fun m => m.id)).Nodup) :
    (addAll settings cid emptyChatCacheState ms).messages =
      ((ms.map (fun m => ({ m with chat_id := cid } : RedisMessage))).reverse).take
        settings.max_history.toNat ∧
    (addAll settings cid emptyChatCacheState ms).messages.length =
      settings.max_history.toNat ∧
    (∀ st m, st.messages.length ≤ settings.max_history.toNat →
      ((add_message_to_chat_history st cid m settings).1).messages.length ≤
        settings.max_history.toNat) := by
  have h := addAll_fresh settings cid hmax ms emptyChatCacheState rfl
    (Nat.zero_le _) hnd (fun m _ hmem => absurd hmem (List.not_mem_nil _))
  have hmsgs : (addAll settings cid emptyChatCacheState ms).messages =
      ((ms.map (fun m => ({ m with chat_id := cid } : RedisMessage))).reverse).take
        settings.max_history.toNat := by
    rw [h.1]
    simp [emptyChatCacheState]
  refine ⟨hmsgs, ?_, ?_⟩
  · rw [hmsgs, List.length_take]
    simp only [List.length_reverse, List.length_map, hlen]
    omega
  · intro st m hle
    unfold add_message_to_chat_history
    dsimp only
    split
    · exact hle
    · split
      · exact hle
      · rw [ltrimFront_eq_take _ settings.max_history hmax]
        simp [Nat.min_le_left]

/-- Witness for C5 at a concrete input: appending eight distinct messages
with `max_history = 3` leaves exactly three cached entries. -/
theorem bounded_history_witness :
    (addAll exampleSettings "7" emptyChatCacheState exampleMessages).messages.length =
      3 :=
  (bounded_history exampleSettings "7" exampleMessages (by decide) rfl
    (by decide)).2.1

/-- C4: for a user with no counter who is not in the online set, the call
sequence connect, connect, connect, disconnect, disconnect, disconnect
(`set_online_status` with status true three times, then false three times)
yields the online-status trace true, true, true, true, true, false — the
status changes exactly twice, at the first connect and the last disconnect —
and publishes a presence-change event exactly at those two calls. -/
theorem presence_counter_transitions (uid : String)
    (settings : RedisConnectionSettings) :
    run_online_status uid settings emptyPresenceState
        [true, true, true, false, false, false] =
      [(true, true), (true, false), (true, false),
        (true, false), (true, false), (false, true)] := rfl

/-- C6: `RedisPubSubManager.publish` degrades every exception raised inside
its `try` block (connection, timeout, OS/serialization, or any other
failure) to a 0 return, and on full success returns the integer receiver
count reported by the transport.  (The function is modelled as a total
function, reflecting that no exception escapes to the caller.) -/
theorem publish_transport_failure_returns_zero (st : BusState)
    (channel : String) (message : PyVal) (b : PublishBehavior) :
    (∀ e, publishFirstError b = some e →
      (RedisPubSubManager.publish st channel message b).2.1 = 0) ∧
    (∀ n : Int, channel.isEmpty = false → message.isDict = true →
      b.get_publisher = StepResult.ok () → b.serialize = StepResult.ok () →
      b.transport_publish = StepResult.ok (RedisReply.int n) →
      (RedisPubSubManager.publish st channel message b).2.1 = n) := by
  obtain ⟨g, sr, tp⟩ := b
  constructor
  · intro e he
    unfold RedisPubSubManager.publish
    by_cases hc : channel.isEmpty
    · simp [hc]
    · by_cases hd : message.isDict
      · cases g with
        | raised e1 => simp [hc, hd]
        | ok v1 =>
          cases sr with
          | raised e2 => simp [hc, hd]
          | ok v2 =>
            cases tp with
            | raised e3 => simp [hc, hd]
            | ok r =>
              exact absurd he (by unfold publishFirstError; simp)
      · simp [hc, hd]
  · intro n hc hd hg hs ht
    subst hg
    subst hs
    subst ht
    unfold RedisPubSubManager.publish
    simp [hc, hd]

/-- Witness for C6 at a concrete input: a connection error during the
transport publish step yields a 0 return. -/
theorem publish_transport_failure_returns_zero_witness :
    (RedisPubSubManager.publish ⟨some (), [("chat_message:7", 1)]⟩
        "chat_message:7" (PyVal.dict [])
        ⟨StepResult.ok (), StepResult.ok (),
          StepResult.raised PublishError.connectionError⟩).2.1 = 0 :=
  (publish_transport_failure_returns_zero ⟨some (), [("chat_message:7", 1)]⟩
      "chat_message:7" (PyVal.dict [])
      ⟨StepResult.ok (), StepResult.ok (),
        StepResult.raised PublishError.connectionError⟩).1
    PublishError.connectionError rfl

/-- C10: `publish` called with an empty channel name or a non-dict message
returns 0 before the `try` block: no serialization or transport step is
attempted and the state (publisher connection, handler table) is unchanged. -/
theorem publish_invalid_input_guard (st : BusState) (channel : String)
    (message : PyVal) (b : PublishBehavior)
    (h : channel.isEmpty = true ∨ message.isDict = false) :
    RedisPubSubManager.publish st channel message b = (st, 0, []) := by
  unfold RedisPubSubManager.publish
  rcases h with h | h
  · simp [h]
  · by_cases hc : channel.isEmpty
    · simp [hc]
    · simp [hc, h]

/-- Witness for C10 at a concrete input: an empty channel name returns 0
with no step attempted and the state unchanged. -/
theorem publish_invalid_input_guard_witness :
    RedisPubSubManager.publish ⟨some (), [("chat_message:7", 1)]⟩ ""
        (PyVal.dict [("type", "new_message")])
        ⟨StepResult.ok (), StepResult.ok (),
          StepResult.ok (RedisReply.int 3)⟩ =
      (⟨some (), [("chat_message:7", 1)]⟩, 0, []) :=
  publish_invalid_input_guard ⟨some (), [("chat_message:7", 1)]⟩ ""
    (PyVal.dict [("type", "new_message")])
    ⟨StepResult.ok (), StepResult.ok (), StepResult.ok (RedisReply.int 3)⟩
    (Or.inl rfl)

/-- C1 counterexample: `exampleManagerState` has N = 3 local connections on
chat `c7` and a connection of the sender `u1` is present, so the claim's
formula N − 1 demands 2 send attempts; the handler makes only 1, because it
skips every connection whose user is the sender (websockets 1 and 2). -/
theorem chat_fanout_sender_formula_counterexample :
    ¬ ((handle_chat_message_pubsub exampleManagerState exampleChatEnvelope).length =
        3 - 1) := by
  decide

/-- The new-message handler, on a registered chat with a truthy chat id,
is the filter of the chat's connection list by the skip predicate. -/
theorem handle_chat_message_eq_filter (st : ConnectionManagerState)
    (env : ChatMessageEnvelope) (cid : String) (conns : List Nat)
    (hdata : env.data = some ⟨some cid⟩) (hcid : cid.isEmpty = false)
    (hchat : lookupChat st cid = some conns) :
    handle_chat_message_pubsub st env =
      conns.filter (fun ws =>
        !(truthyOpt (userOf st ws) && truthyOpt env.sender_id &&
          (userOf st ws == env.sender_id))) := by
  unfold handle_chat_message_pubsub
  rw [hdata]
  simp [truthyOpt, hcid, hchat]

/-- C1 (amended): on a pub/sub new-message event for a chat with locally
registered connections and a truthy sender id, the handler attempts a send
to exactly the connections whose associated user id differs from the
sender's — N minus the number of the sender's own connections, each exactly
once; every connection of the sender receives nothing, and a chat with no
locally registered connections is a no-op. -/
theorem chat_fanout_skips_all_sender_connections (st : ConnectionManagerState)
    (env : ChatMessageEnvelope) (cid s : String) (conns : List Nat)
    (hdata : env.data = some ⟨some cid⟩)
    (hcid : cid.isEmpty = false)
    (hsender : env.sender_id = some s)
    (hs : s.isEmpty = false)
    (hchat : lookupChat st cid = some conns)
    (hnd : conns.Nodup)
    (hcons : ∀ ws ∈ conns, ∃ u, userOf st ws = some u ∧ u.isEmpty = false) :
    handle_chat_message_pubsub st env =
      conns.filter (fun ws => !(userOf st ws == some s)) ∧
    (handle_chat_message_pubsub st env).length =
      conns.length - conns.countP (fun ws => userOf st ws == some s) ∧
    (∀ ws ∈ conns, userOf st ws = some s →
      ws ∉ handle_chat_message_pubsub st env) ∧
    (∀ ws ∈ conns, ¬ userOf st ws = some s →
      (handle_chat_message_pubsub st env).count ws = 1) ∧
    (∀ st2, lookupChat st2 cid = none →
      handle_chat_message_pubsub st2 env = []) := by
  have h0 := handle_chat_message_eq_filter st env cid conns hdata hcid hchat
  have hpt : ∀ ws ∈ conns,
      (!(truthyOpt (userOf st ws) && truthyOpt env.sender_id &&
        (userOf st ws == env.sender_id))) =
        !(userOf st ws == some s) := by
    intro ws hws
    obtain ⟨u, hu, hue⟩ := hcons ws hws
    rw [hu, hsender]
    simp [truthyOpt, hue, hs]
  have hfilter : handle_chat_message_pubsub st env =
      conns.filter (fun ws => !(userOf st ws == some s)) := by
    rw [h0]
    exact List.filter_congr hpt
  refine ⟨hfilter, ?_, ?_, ?_, ?_⟩
  · rw [hfilter]
    have hsplit := List.length_eq_length_filter_add (l := conns)
      (fun ws => userOf st ws == some s)
    simp only at hsplit
    rw [List.countP_eq_length_filter]
    omega
  · intro ws _ hus hmem
    rw [hfilter] at hmem
    have := List.of_mem_filter hmem
    rw [hus] at this
    simp at this
  · intro ws hws hus
    rw [hfilter]
    refine List.count_eq_one_of_mem (hnd.filter _) (List.mem_filter.mpr ⟨hws, ?_⟩)
    simp [beq_iff_eq, hus]
  · intro st2 h2
    unfold handle_chat_message_pubsub
    rw [hdata]
    simp [truthyOpt, hcid, h2]

/-- Witness for C1 at a concrete input: in `exampleManagerState` (sender
`u1` owns websockets 1 and 2, user `u2` owns websocket 3), the non-sender
websocket 3 receives exactly one send attempt. -/
theorem chat_fanout_skips_all_sender_connections_witness :
    (handle_chat_message_pubsub exampleManagerState exampleChatEnvelope).count 3 =
      1 :=
  (chat_fanout_skips_all_sender_connections exampleManagerState
      exampleChatEnvelope "c7" "u1" [1, 2, 3] rfl rfl rfl rfl rfl (by decide)
      (by
        intro ws hws
        fin_cases hws
        · exact ⟨"u1", rfl, rfl⟩
        · exact ⟨"u1", rfl, rfl⟩
        · exact ⟨"u2", rfl, rfl⟩)).2.2.2.1 3 (by decide) (by decide)

/-- C9: on a pub/sub deletion event for a chat with locally registered
connections, the handler attempts a send to every local connection of the
chat — no sender exclusion — exactly once each, forwarding the envelope
that carries the deleted message's id; a chat with no locally registered
connections is a no-op. -/
theorem deletion_fanout_no_sender_exclusion (st : ConnectionManagerState)
    (env : DeletedMessageEnvelope) (cid mid : String) (conns : List Nat)
    (hcid : env.chat_id = some cid) (hc : cid.isEmpty = false)
    (hmid : env.message_id = some mid) (hm : mid.isEmpty = false)
    (hchat : lookupChat st cid = some conns) (hnd : conns.Nodup) :
    (handle_deleted_message_pubsub st env).map Prod.fst = conns ∧
    (∀ ws ∈ conns,
      ((handle_deleted_message_pubsub st env).map Prod.fst).count ws = 1) ∧
    (∀ pr ∈ handle_deleted_message_pubsub st env,
      pr.2.message_id = some mid) ∧
    (∀ st2, lookupChat st2 cid = none →
      handle_deleted_message_pubsub st2 env = []) := by
  have h0 : handle_deleted_message_pubsub st env =
      conns.map (fun ws => (ws, env)) := by
    unfold handle_deleted_message_pubsub
    rw [hcid, hmid]
    simp [truthyOpt, hc, hm, hchat]
  have hmap : (handle_deleted_message_pubsub st env).map Prod.fst = conns := by
    rw [h0]
    simp [Function.comp_def]
  refine ⟨hmap, ?_, ?_, ?_⟩
  · intro ws hws
    rw [hmap]
    exact List.count_eq_one_of_mem hnd hws
  · intro pr hpr
    rw [h0] at hpr
    obtain ⟨ws, _, hEq⟩ := List.mem_map.mp hpr
    rw [← hEq]
    exact hmid
  · intro st2 h2
    unfold handle_deleted_message_pubsub
    rw [hcid, hmid]
    simp [truthyOpt, hc, hm, h2]

/-- Witness for C9 at a concrete input: in `exampleManagerState`, websocket
2 — a connection of the deleter `u1` — receives exactly one deletion frame. -/
theorem deletion_fanout_no_sender_exclusion_witness :
    ((handle_deleted_message_pubsub exampleManagerState
        exampleDeletedEnvelope).map Prod.fst).count 2 = 1 :=
  (deletion_fanout_no_sender_exclusion exampleManagerState
      exampleDeletedEnvelope "c7" "42" [1, 2, 3] rfl rfl rfl rfl rfl
      (by decide)).2.1 2 (by decide)

/-- C7 counterexample: websocket 1 of `exampleManagerState` is registered;
a cancellation hitting its heartbeat send makes the loop break without
invoking `disconnect`, not the exactly-one internal-error disconnect the
claim demands. -/
theorem heartbeat_cancellation_counterexample :
    ¬ ((heartbeat_loop exampleManagerState 1 [SendOutcome.cancelled]).2.length =
        1) := by
  decide

/-- After `disconnect` of a tracked websocket, no local registry structure
references it (assuming the registry is consistent: the heartbeat key set
and per-chat sets are duplicate-free and the websocket only appears in its
own chat's set). -/
theorem disconnect_removes_references (st : ConnectionManagerState)
    (websocket code : Nat) (uid cid : String)
    (hfind : st.active_local_connections.find? (fun p => p.1 == websocket) =
      some (websocket, uid, cid))
    (hhb : st.heartbeat_tasks.Nodup)
    (hchats : ∀ p ∈ st.local_chats, websocket ∈ p.2 → p.1 = cid)
    (hsets : ∀ p ∈ st.local_chats, p.2.Nodup) :
    ¬ referencesWebsocket (ConnectionManager.disconnect st websocket code)
        websocket := by
  unfold ConnectionManager.disconnect
  rw [hfind]
  dsimp only
  intro href
  rcases href with h | h | h
  · obtain ⟨p, hp, hpw⟩ := h
    have := List.of_mem_filter hp
    rw [hpw] at this
    simp at this
  · obtain ⟨p, hp, hmem⟩ := h
    unfold chatRemove at hp
    obtain ⟨q, hq, hfq⟩ := List.mem_filterMap.mp hp
    by_cases hqc : q.1 = cid ∧ websocket ∈ q.2
    · rw [if_pos hqc] at hfq
      dsimp only at hfq
      by_cases he : (q.2.erase websocket).isEmpty
      · rw [if_pos he] at hfq
        cases hfq
      · rw [if_neg he] at hfq
        have hpq : p = (q.1, q.2.erase websocket) := (Option.some.injEq _ _ ▸ hfq).symm
        rw [hpq] at hmem
        exact (((hsets q hq).mem_erase_iff.mp hmem).1) rfl
    · rw [if_neg hqc] at hfq
      have hpq : p = q := (Option.some.injEq _ _ ▸ hfq).symm
      rw [hpq] at hmem
      exact hqc ⟨hchats q hq hmem, hmem⟩
  · exact ((hhb.mem_erase_iff.mp h).1) rfl

/-- C7 (amended): with the websocket registered, heartbeat cycles that
send successfully leave the registry alone, and the first send failure that
is neither a `WebSocketDisconnect` nor a cancellation triggers exactly one
`disconnect` call with the internal-error close code 1011, after which no
local structure references the connection.  (`WebSocketDisconnect` and
cancellation, by contrast, only break the loop — see the counterexample.) -/
theorem heartbeat_exception_disconnects_once (st : ConnectionManagerState)
    (websocket : Nat) (uid cid : String) (k : Nat)
    (hfind : st.active_local_connections.find? (fun p => p.1 == websocket) =
      some (websocket, uid, cid))
    (hhb : st.heartbeat_tasks.Nodup)
    (hchats : ∀ p ∈ st.local_chats, websocket ∈ p.2 → p.1 = cid)
    (hsets : ∀ p ∈ st.local_chats, p.2.Nodup) :
    (heartbeat_loop st websocket
        (List.replicate k SendOutcome.ok ++ [SendOutcome.exc])).2 =
      [(websocket, WS_1011_INTERNAL_ERROR)] ∧
    ¬ referencesWebsocket
        (heartbeat_loop st websocket
          (List.replicate k SendOutcome.ok ++ [SendOutcome.exc])).1
        websocket := by
  have hin : st.active_local_connections.any (fun p => p.1 == websocket) = true := by
    rw [List.any_eq_true]
    exact ⟨_, List.mem_of_find?_eq_some hfind, by simp⟩
  have hrun : heartbeat_loop st websocket
      (List.replicate k SendOutcome.ok ++ [SendOutcome.exc]) =
      (ConnectionManager.disconnect st websocket WS_1011_INTERNAL_ERROR,
        [(websocket, WS_1011_INTERNAL_ERROR)]) := by
    induction k with
    | zero => simp [heartbeat_loop, hin]
    | succ n ih =>
        rw [List.replicate_succ, List.cons_append]
        simp only [heartbeat_loop, hin, if_true]
        exact ih
  rw [hrun]
  exact ⟨rfl, disconnect_removes_references st websocket WS_1011_INTERNAL_ERROR
    uid cid hfind hhb hchats hsets⟩

/-- Witness for C7 at a concrete input: websocket 1's heartbeat send fails
three cycles in (two successful pings, then a generic exception); the
registry makes exactly one disconnect call, with close code 1011. -/
theorem heartbeat_exception_disconnects_once_witness :
    (heartbeat_loop exampleManagerState 1
        (List.replicate 2 SendOutcome.ok ++ [SendOutcome.exc])).2 =
      [(1, WS_1011_INTERNAL_ERROR)] :=
  (heartbeat_exception_disconnects_once exampleManagerState 1 "u1" "c7" 2 rfl
      (by decide) (by decide) (by decide)).1

/-- C8 (code bug): `connect` on a fresh manager registers the connection in
both local maps and starts a heartbeat task, but the presence key space
stays empty — user `42` gets no connection counter and never enters the
online set — because `set_online_status(redis, user_id, True)` passes a
bare string and boolean where a `UserStatus` and settings are expected; the
resulting `AttributeError` is swallowed by `handle_redis_errors`. -/
theorem connect_presence_not_registered :
    (ConnectionManager.connect emptyConnectionManagerState 1 "7"
        "42").active_local_connections = [(1, ("42", "7"))] ∧
    (ConnectionManager.connect emptyConnectionManagerState 1 "7"
        "42").local_chats = [("7", [1])] ∧
    (ConnectionManager.connect emptyConnectionManagerState 1 "7"
        "42").heartbeat_tasks = [1] ∧
    (ConnectionManager.connect emptyConnectionManagerState 1 "7"
        "42").presence = [] ∧
    presenceOf (ConnectionManager.connect emptyConnectionManagerState 1 "7"
        "42").presence "42" = emptyPresenceState := by
  decide

end FastChat
